import Mathlib

/-!
Verification of the boxcars replay-decoding core: a shallow embedding of
`src/network/models.rs`, `src/network.rs` and `src/bin/clean.rs`, together
with theorems settling the specification claims.

Rust `HashMap`s are modelled by association lists with insert-overwrite
semantics (`RMap`); the bit cursor of the external `bitter` crate is
modelled as a list of booleans read least-significant-bit first, with the
reader primitives reproducing bitter's documented behaviour (validated
below against the repository's own unit tests). Rust `f32` values are
modelled as rationals, `u8`/`u32` as `Nat` with explicit casts where the
source casts, `i32`/`i8` as `Int`.
-/

namespace Boxcars

/-- Decidable equality for `Except`, used to evaluate the embedded
fallible operations on concrete inputs. -/
instance {ε α : Type} [DecidableEq ε] [DecidableEq α] : DecidableEq (Except ε α) := fun a b =>
  match a, b with
  | .ok x, .ok y =>
    if h : x = y then .isTrue (by rw [h])
    else .isFalse (fun hc => h (Except.ok.inj hc))
  | .error x, .error y =>
    if h : x = y then .isTrue (by rw [h])
    else .isFalse (fun hc => h (Except.error.inj hc))
  | .ok _, .error _ => .isFalse (fun hc => Except.noConfusion hc)
  | .error _, .ok _ => .isFalse (fun hc => Except.noConfusion hc)

/-! ## Association-list model of Rust HashMap -/

/-- Lookup in an association list: first entry with the given key. -/
def lookupL {κ α : Type} [DecidableEq κ] : List (κ × α) → κ → Option α
  | [], _ => none
  | (k', v) :: rest, k => if k' = k then some v else lookupL rest k

/-- Remove every entry with the given key (Rust HashMap keys are unique,
so this matches `HashMap::remove`). -/
def eraseL {κ α : Type} [DecidableEq κ] : List (κ × α) → κ → List (κ × α)
  | [], _ => []
  | p :: rest, k => if p.1 = k then eraseL rest k else p :: eraseL rest k

/-- Model of Rust's `HashMap`: an association list with unique keys kept
by construction (insert overwrites). -/
structure RMap (κ α : Type) where
  entries : List (κ × α)
  deriving DecidableEq

namespace RMap

variable {κ α : Type} [DecidableEq κ]

def empty : RMap κ α := ⟨[]⟩

def lookup (m : RMap κ α) (k : κ) : Option α := lookupL m.entries k

def insert (m : RMap κ α) (k : κ) (v : α) : RMap κ α := ⟨(k, v) :: eraseL m.entries k⟩

def erase (m : RMap κ α) (k : κ) : RMap κ α := ⟨eraseL m.entries k⟩

def keys (m : RMap κ α) : List κ := m.entries.map Prod.fst

def getD (m : RMap κ α) (k : κ) (d : α) : α := (m.lookup k).getD d

end RMap

/-! ## Bit-cursor model of the `bitter` crate

The cursor is a list of booleans, least-significant bit of each input byte
first; a checked read returns the value and the remaining bits, or `none`
when the source is exhausted (`bitter` returns `Option`). The unchecked
variants are total; they coincide with the checked ones whenever the
checked read succeeds, which is the only situation the source uses them in. -/

abbrev Bits := List Bool

/-- Value of a little-endian bit string: the head bit is the least
significant. -/
def natOfBits : List Bool → Nat
  | [] => 0
  | b :: rest => (cond b 1 0) + 2 * natOfBits rest

/-- `bitter`'s `read_u32_bits(n)`: `n` bits, unsigned, little-endian. -/
def readU32Bits (n : Nat) (bits : Bits) : Option (Nat × Bits) :=
  if n ≤ bits.length then some (natOfBits (bits.take n), bits.drop n) else none

/-- `bitter`'s `read_bit`. -/
def readBit (bits : Bits) : Option (Bool × Bits) :=
  match bits with
  | [] => none
  | b :: r => some (b, r)

/-- `bitter`'s `read_bits_max_computed(max_bits, max)`: read `max_bits`
bits; if setting one further bit could still stay below `max`, a fifth
bit decides whether that higher value is meant. -/
def readBitsMaxComputed (maxBits maxv : Nat) (bits : Bits) : Option (Nat × Bits) :=
  match readU32Bits maxBits bits with
  | none => none
  | some (data, r) =>
    if maxv ≤ data + 2 ^ maxBits then some (data, r)
    else
      match readBit r with
      | none => none
      | some (b, r2) => some (if b then data + 2 ^ maxBits else data, r2)

/-- `bitter`'s `read_bits_max(bits, max)`: as `read_bits_max_computed`
with `bits - 1` base bits (the first argument counts the conditional bit). -/
def readBitsMax (width maxv : Nat) (bits : Bits) : Option (Nat × Bits) :=
  readBitsMaxComputed (width - 1) maxv bits

/-- Two's-complement reading of an 8-bit unsigned value as Rust `i8`. -/
def i8ofNat (n : Nat) : Int :=
  if n < 128 then (n : Int) else (n : Int) - 256

/-- `bitter`'s `read_i8`: eight bits as a signed byte. -/
def readI8 (bits : Bits) : Option (Int × Bits) :=
  match readU32Bits 8 bits with
  | none => none
  | some (v, r) => some (i8ofNat v, r)

/-- `bitter`'s `if_get`: one flag bit, then the payload only when the flag
is set. -/
def ifGet {α : Type} (f : Bits → Option (α × Bits)) (bits : Bits) :
    Option (Option α × Bits) :=
  match readBit bits with
  | none => none
  | some (true, r) =>
    match f r with
    | none => none
    | some (v, r2) => some (some v, r2)
  | some (false, r) => some (none, r)

/-- Unchecked `read_u32_bits`: total; meaningful only when enough bits remain. -/
def readU32BitsU (n : Nat) (bits : Bits) : Nat × Bits :=
  (natOfBits (bits.take n), bits.drop n)

/-- Unchecked `read_bit`. -/
def readBitU (bits : Bits) : Bool × Bits :=
  match bits with
  | [] => (false, [])
  | b :: r => (b, r)

/-- Unchecked `read_bits_max_computed`. -/
def readBitsMaxComputedU (maxBits maxv : Nat) (bits : Bits) : Nat × Bits :=
  let p := readU32BitsU maxBits bits
  if maxv ≤ p.1 + 2 ^ maxBits then p
  else
    let q := readBitU p.2
    (if q.1 then p.1 + 2 ^ maxBits else p.1, q.2)

/-- Unchecked `read_i8`. -/
def readI8U (bits : Bits) : Int × Bits :=
  let p := readU32BitsU 8 bits
  (i8ofNat p.1, p.2)

/-- Unchecked `if_get`. -/
def ifGetU {α : Type} (f : Bits → α × Bits) (bits : Bits) : Option α × Bits :=
  let p := readBitU bits
  if p.1 then
    let q := f p.2
    (some q.1, q.2)
  else (none, p.2)

/-- Rust `u32 as i32` cast. -/
def u32ToI32 (n : Nat) : Int :=
  if n < 2 ^ 31 then (n : Int) else (n : Int) - 2 ^ 32

/-! ## `src/network/models.rs` -/

/-- `Vector` of `src/network/models.rs`. -/
structure Vector where
  bias : Int
  dx : Int
  dy : Int
  dz : Int
  deriving DecidableEq

/-- `Vector::decode` of `src/network/models.rs`: the version-aware decoder. -/
def Vector.decode (net_version : Int) (bits : Bits) : Option (Vector × Bits) :=
  match readBitsMaxComputed 4 (if 7 ≤ net_version then 22 else 20) bits with
  | none => none
  | some (size_bits, r0) =>
    match readU32Bits (size_bits + 2) r0 with
    | none => none
    | some (dx, r1) =>
      match readU32Bits (size_bits + 2) r1 with
      | none => none
      | some (dy, r2) =>
        match readU32Bits (size_bits + 2) r2 with
        | none => none
        | some (dz, r3) =>
          some ({ bias := (2 : Int) ^ (size_bits + 1), dx := u32ToI32 dx,
                  dy := u32ToI32 dy, dz := u32ToI32 dz }, r3)

/-- `Vector::decode_unchecked` of `src/network/models.rs`. -/
def Vector.decode_unchecked (net_version : Int) (bits : Bits) : Vector × Bits :=
  let s := readBitsMaxComputedU 4 (if 7 ≤ net_version then 22 else 20) bits
  let x := readU32BitsU (s.1 + 2) s.2
  let y := readU32BitsU (s.1 + 2) x.2
  let z := readU32BitsU (s.1 + 2) y.2
  ({ bias := (2 : Int) ^ (s.1 + 1), dx := u32ToI32 x.1,
     dy := u32ToI32 y.1, dz := u32ToI32 z.1 }, z.2)

/-- `Rotation` of `src/network/models.rs` (renamed: three independently
optional signed byte components). -/
structure Rotator where
  yaw : Option Int
  pitch : Option Int
  roll : Option Int
  deriving DecidableEq

/-- `Rotation::decode` of `src/network/models.rs`. -/
def Rotator.decode (bits : Bits) : Option (Rotator × Bits) :=
  match ifGet readI8 bits with
  | none => none
  | some (yaw, r1) =>
    match ifGet readI8 r1 with
    | none => none
    | some (pitch, r2) =>
      match ifGet readI8 r2 with
      | none => none
      | some (roll, r3) => some ({ yaw := yaw, pitch := pitch, roll := roll }, r3)

/-- `Rotation::decode_unchecked` of `src/network/models.rs`. -/
def Rotator.decode_unchecked (bits : Bits) : Rotator × Bits :=
  let y := ifGetU readI8U bits
  let p := ifGetU readI8U y.2
  let r := ifGetU readI8U p.2
  ({ yaw := y.1, pitch := p.1, roll := r.1 }, r.2)

/-- `SpawnTrajectory` of `src/network/models.rs`. -/
inductive SpawnTrajectory where
  | None
  | Location
  | LocationAndRotator
  deriving DecidableEq

/-- `Trajectory` of `src/network/models.rs` (field `rotation` renamed `rot`). -/
structure Trajectory where
  location : Option Vector
  rot : Option Rotator
  deriving DecidableEq

/-- `Trajectory::from_spawn` of `src/network/models.rs`. -/
def Trajectory.from_spawn (sp : SpawnTrajectory) (net_version : Int) (bits : Bits) :
    Option (Trajectory × Bits) :=
  match sp with
  | .None => some ({ location := none, rot := none }, bits)
  | .Location =>
    (Vector.decode net_version bits).map (fun p => ({ location := some p.1, rot := none }, p.2))
  | .LocationAndRotator =>
    match Vector.decode net_version bits with
    | none => none
    | some (v, r1) =>
      match Rotator.decode r1 with
      | none => none
      | some (rt, r2) => some ({ location := some v, rot := some rt }, r2)

/-- `Trajectory::from_spawn_unchecked` of `src/network/models.rs`. -/
def Trajectory.from_spawn_unchecked (sp : SpawnTrajectory) (net_version : Int)
    (bits : Bits) : Trajectory × Bits :=
  match sp with
  | .None => ({ location := none, rot := none }, bits)
  | .Location =>
    let p := Vector.decode_unchecked net_version bits
    ({ location := some p.1, rot := none }, p.2)
  | .LocationAndRotator =>
    let p := Vector.decode_unchecked net_version bits
    let q := Rotator.decode_unchecked p.2
    ({ location := some p.1, rot := some q.1 }, q.2)

/-! ## `src/network.rs` (the older, unversioned decoder) -/

namespace Network

/-- `Vector` of `src/network.rs`. -/
structure Vector where
  bias : Int
  dx : Int
  dy : Int
  dz : Int
  deriving DecidableEq

/-- `Vector::decode` of `src/network.rs`: fixed `read_bits_max(5, 20)`
selector, no version parameter. -/
def Vector.decode (bits : Bits) : Option (Vector × Bits) :=
  match readBitsMax 5 20 bits with
  | none => none
  | some (size_bits, r0) =>
    match readU32Bits (size_bits + 2) r0 with
    | none => none
    | some (dx, r1) =>
      match readU32Bits (size_bits + 2) r1 with
      | none => none
      | some (dy, r2) =>
        match readU32Bits (size_bits + 2) r2 with
        | none => none
        | some (dz, r3) =>
          some ({ bias := (2 : Int) ^ (size_bits + 1), dx := u32ToI32 dx,
                  dy := u32ToI32 dy, dz := u32ToI32 dz }, r3)

end Network

/-- Little-endian bit expansion of one byte (bitter reads the least
significant bit of each byte first). -/
def bitsOfByte (n : Nat) : Bits :=
  [decide (n % 2 = 1), decide (n / 2 % 2 = 1), decide (n / 4 % 2 = 1),
   decide (n / 8 % 2 = 1), decide (n / 16 % 2 = 1), decide (n / 32 % 2 = 1),
   decide (n / 64 % 2 = 1), decide (n / 128 % 2 = 1)]

/-- A byte slice as a bit cursor. -/
def bitsOfBytes (l : List Nat) : Bits :=
  l.foldr (fun b acc => bitsOfByte b ++ acc) []

/-! ## Identifier types of `src/network/models.rs` -/

/-- `ActorId(pub i32)` of `src/network/models.rs`. -/
abbrev ActorId := Int

/-- `ObjectId(pub i32)` of `src/network/models.rs`. -/
abbrev ObjectId := Int

/-- `StreamId(pub i32)` of `src/network/models.rs`. -/
abbrev StreamId := Int

/-- Modelled from the spec: `PlayerId` is "a stable cross-frame player
identity (platform unique id)" — `boxcars::UniqueId`, whose definition
(`src/network/attributes.rs`) is not part of the sources; only its
decidable identity is used, so it is modelled as a natural number. -/
abbrev UniqueId := Nat

/-- Modelled from the spec: the `ActiveActor` attribute payload, an
"active-actor-reference"; `clean.rs` reads only its `actor` field. -/
structure ActiveActor where
  active : Bool
  actor : ActorId
  deriving DecidableEq

/-- Modelled from the spec: "rigid-body {optional sleeping flag, Vector,
Rotation, Vector-velocity-if-present}". `clean.rs` only copies rigid
bodies, never inspects them. -/
structure RigidBody where
  sleeping : Option Bool
  location : Vector
  rot : Rotator
  linear_velocity : Option Vector
  angular_velocity : Option Vector
  deriving DecidableEq

/-- Modelled from the spec: "Decoded attribute values already typed into a
closed variant set (at minimum: byte, integer, float, boolean, rigid-body,
active-actor-reference, unique-player-id, and others not relevant to this
core)" — `boxcars::Attribute` of `src/network/attributes.rs`, which is not
part of the sources. `Other` stands for the remaining variants. -/
inductive Attribute where
  | Byte (v : Nat)
  | Int (v : Int)
  | Float (v : ℚ)
  | BoolVal (b : Bool)
  | RigidBody (rb : RigidBody)
  | ActiveActor (a : ActiveActor)
  | UniqueId (u : UniqueId)
  | Other
  deriving DecidableEq

/-- The `attribute_match!` macro of `clean.rs` for `Attribute::ActiveActor`. -/
def Attribute.asActiveActor : Attribute → Except String Boxcars.ActiveActor
  | .ActiveActor a => .ok a
  | _ => .error "value not of the expected type"

/-- `attribute_match!` for `Attribute::UniqueId`. -/
def Attribute.asUniqueId : Attribute → Except String Boxcars.UniqueId
  | .UniqueId u => .ok u
  | _ => .error "value not of the expected type"

/-- `attribute_match!` for `Attribute::Int`. -/
def Attribute.asInt : Attribute → Except String ℤ
  | .Int v => .ok v
  | _ => .error "value not of the expected type"

/-- `attribute_match!` for `Attribute::Byte`. -/
def Attribute.asByte : Attribute → Except String Nat
  | .Byte v => .ok v
  | _ => .error "value not of the expected type"

/-- `attribute_match!` for `Attribute::Float`. -/
def Attribute.asFloat : Attribute → Except String ℚ
  | .Float v => .ok v
  | _ => .error "value not of the expected type"

/-- `attribute_match!` for `Attribute::RigidBody`. -/
def Attribute.asRigidBody : Attribute → Except String Boxcars.RigidBody
  | .RigidBody rb => .ok rb
  | _ => .error "value not of the expected type"

/-- `NewActor` of `src/network/models.rs`. -/
structure NewActor where
  actor_id : ActorId
  name_id : Option Int
  object_id : ObjectId
  initial_trajectory : Trajectory
  deriving DecidableEq

/-- `UpdatedAttribute` of `src/network/models.rs`; the field `attribute`
is renamed `attr` (`attribute` is a Lean keyword). -/
structure UpdatedAttribute where
  actor_id : ActorId
  stream_id : StreamId
  object_id : ObjectId
  attr : Attribute
  deriving DecidableEq

/-- `Frame` of `src/network/models.rs` (`f32` times as rationals). -/
structure Frame where
  time : ℚ
  delta : ℚ
  new_actors : List NewActor
  deleted_actors : List ActorId
  updated_actors : List UpdatedAttribute
  deriving DecidableEq

/-- `NetworkFrames` of the boxcars crate: `clean.rs` only reads `.frames`. -/
structure NetworkFrames where
  frames : List Frame
  deriving DecidableEq

/-- The parts of `boxcars::Replay` that `clean.rs` reads: the object-name
table and the network frames. -/
structure Replay where
  objects : List String
  network_frames : Option NetworkFrames
  deriving DecidableEq

/-! ## `src/bin/clean.rs`: actor state store -/

namespace Clean

/-- `ActorState` of `clean.rs`. -/
structure ActorState where
  attributes : RMap ObjectId Attribute
  derived_attributes : RMap String Attribute
  object_id : ObjectId
  name_id : Option Int
  deriving DecidableEq

/-- `ActorState::new`. -/
def ActorState.new (new_actor : NewActor) : ActorState :=
  { attributes := RMap.empty, derived_attributes := RMap.empty,
    object_id := new_actor.object_id, name_id := new_actor.name_id }

/-- `ActorState::update_attribute`: overwrite, returning the previous value. -/
def ActorState.update_attribute (st : ActorState) (update : UpdatedAttribute) :
    Option Attribute × ActorState :=
  (st.attributes.lookup update.object_id,
   { st with attributes := st.attributes.insert update.object_id update.attr })

/-- `ActorStateModeler` of `clean.rs`. -/
structure ActorStateModeler where
  actor_states : RMap ActorId ActorState
  actor_ids_by_type : RMap ObjectId (List ActorId)
  deriving DecidableEq

/-- `ActorStateModeler::new`. -/
def ActorStateModeler.new : ActorStateModeler :=
  { actor_states := RMap.empty, actor_ids_by_type := RMap.empty }

/-- `ActorStateModeler::new_actor`: re-spawn with the same object type is a
no-op, with a different type an error; a fresh id gets empty state and an
entry in the type index. -/
def ActorStateModeler.new_actor (m : ActorStateModeler) (n : NewActor) :
    Except String ActorStateModeler :=
  match m.actor_states.lookup n.actor_id with
  | some state =>
    if state.object_id = n.object_id then .ok m
    else .error "Tried to make new actor over existing state of a different type"
  | none =>
    .ok { actor_states := m.actor_states.insert n.actor_id (ActorState.new n),
          actor_ids_by_type := m.actor_ids_by_type.insert n.object_id
            ((m.actor_ids_by_type.lookup n.object_id).getD [] ++ [n.actor_id]) }

/-- `ActorStateModeler::update_attribute`. -/
def ActorStateModeler.update_attribute (m : ActorStateModeler)
    (update : UpdatedAttribute) : Except String (Option Attribute × ActorStateModeler) :=
  match m.actor_states.lookup update.actor_id with
  | none => .error "Unable to find actor associated with update"
  | some state =>
    let p := state.update_attribute update
    .ok (p.1, { m with actor_states := m.actor_states.insert update.actor_id p.2 })

/-- `ActorStateModeler::delete_actor`: remove the state and drop the id from
its type's index list (`entry(..).or_insert_with(Vec::new).retain(..)`). -/
def ActorStateModeler.delete_actor (m : ActorStateModeler) (actor_id : ActorId) :
    Except String (ActorState × ActorStateModeler) :=
  match m.actor_states.lookup actor_id with
  | none => .error "Unabled to delete actor id"
  | some state =>
    .ok (state,
    { actor_states := m.actor_states.erase actor_id,
      actor_ids_by_type := m.actor_ids_by_type.insert state.object_id
        (((m.actor_ids_by_type.lookup state.object_id).getD []).filter
          (fun x => decide (x ≠ actor_id))) })

/-- `ActorStateModeler::process_frame`: deletes, then spawns, then updates,
stopping at the first error. -/
def ActorStateModeler.process_frame (m : ActorStateModeler) (frame : Frame) :
    Except String ActorStateModeler := do
  let m ← frame.deleted_actors.foldlM
    (fun m a => (ActorStateModeler.delete_actor m a).map Prod.snd) m
  let m ← frame.new_actors.foldlM ActorStateModeler.new_actor m
  frame.updated_actors.foldlM
    (fun m u => (ActorStateModeler.update_attribute m u).map Prod.snd) m

/-! ## `clean.rs`: static names -/

def BALL_TYPES : List String :=
  ["Archetypes.Ball.Ball_Default", "Archetypes.Ball.Ball_Basketball",
   "Archetypes.Ball.Ball_Puck", "Archetypes.Ball.CubeBall",
   "Archetypes.Ball.Ball_Breakout"]

def BOOST_TYPE : String := "Archetypes.CarComponents.CarComponent_Boost"

def JUMP_TYPE : String := "Archetypes.CarComponents.CarComponent_Jump"

def DOUBLE_JUMP_TYPE : String := "Archetypes.CarComponents.CarComponent_DoubleJump"

def DODGE_TYPE : String := "Archetypes.CarComponents.CarComponent_Dodge"

def CAR_TYPE : String := "Archetypes.Car.Car_Default"

def PLAYER_REPLICATION_KEY : String := "Engine.Pawn:PlayerReplicationInfo"

def PLAYER_TYPE : String := "TAGame.Default__PRI_TA"

def GAME_TYPE : String := "Archetypes.GameEvent.GameEvent_Soccar"

def BOOST_AMOUNT_KEY : String := "TAGame.CarComponent_Boost_TA:ReplicatedBoostAmount"

def LAST_BOOST_AMOUNT_KEY : String :=
  "TAGame.CarComponent_Boost_TA:ReplicatedBoostAmount.Last"

def COMPONENT_ACTIVE_KEY : String := "TAGame.CarComponent_TA:ReplicatedActive"

def RIGID_BODY_STATE_KEY : String := "TAGame.RBActor_TA:ReplicatedRBState"

def UNIQUE_ID_KEY : String := "Engine.PlayerReplicationInfo:UniqueId"

def VEHICLE_KEY : String := "TAGame.CarComponent_TA:Vehicle"

def SECONDS_REMAINING_KEY : String := "TAGame.GameEvent_Soccar_TA:SecondsRemaining"

def BOOST_USED_PER_SECOND : ℚ := 80 / 0.93

/-! ## `clean.rs`: output timeline -/

/-- `BallFrame` of `clean.rs`. -/
inductive BallFrame where
  | Empty
  | Data (rigid_body : RigidBody)
  deriving DecidableEq

/-- `BallFrame::from_data`. -/
def BallFrame.from_data (rigid_body : RigidBody) : BallFrame :=
  .Data rigid_body

/-- `PlayerFrame` of `clean.rs`. -/
inductive PlayerFrame where
  | Empty
  | Data (rigid_body : RigidBody) (boost_amount : ℚ)
  deriving DecidableEq

/-- `PlayerFrame::from_data`. -/
def PlayerFrame.from_data (rigid_body : RigidBody) (boost_amount : ℚ) : PlayerFrame :=
  .Data rigid_body boost_amount

/-- `MetadataFrame` of `clean.rs` (`seconds_remaining` is a `u8`). -/
structure MetadataFrame where
  time : ℚ
  seconds_remaining : Nat
  deriving DecidableEq

/-- `MetadataFrame::new`. -/
def MetadataFrame.new (time : ℚ) (seconds_remaining : Nat) : MetadataFrame :=
  { time := time, seconds_remaining := seconds_remaining }

/-- `PlayerData` of `clean.rs`. -/
structure PlayerData where
  frames : List PlayerFrame
  deriving DecidableEq

/-- `PlayerData::new`. -/
def PlayerData.new : PlayerData := { frames := [] }

/-- `PlayerData::add_frame`: push `frame_number - len` empty records, then
the new record (the subtraction is on `usize`; the program never reaches a
state where it would underflow). -/
def PlayerData.add_frame (d : PlayerData) (frame_number : Nat) (frame : PlayerFrame) :
    PlayerData :=
  { frames := d.frames ++ List.replicate (frame_number - d.frames.length) .Empty
      ++ [frame] }

/-- `BallData` of `clean.rs`. -/
structure BallData where
  frames : List BallFrame
  deriving DecidableEq

/-- `BallData::add_frame`. -/
def BallData.add_frame (d : BallData) (frame_number : Nat) (frame : BallFrame) :
    BallData :=
  { frames := d.frames ++ List.replicate (frame_number - d.frames.length) .Empty
      ++ [frame] }

/-- `ReplayData` of `clean.rs`. -/
structure ReplayData where
  ball_data : BallData
  players : RMap UniqueId PlayerData
  frame_metadata : List MetadataFrame
  deriving DecidableEq

/-- `ReplayData::new`. -/
def ReplayData.new : ReplayData :=
  { ball_data := { frames := [] }, players := RMap.empty, frame_metadata := [] }

/-- `ReplayData::add_frame`: push the metadata record, then pass the length
of the metadata sequence (taken after the push) as the frame number for the
ball and player sequences. -/
def ReplayData.add_frame (rd : ReplayData) (frame_metadata : MetadataFrame)
    (ball_frame : BallFrame) (player_frames : List (UniqueId × PlayerFrame)) :
    Except String ReplayData :=
  let metadata := rd.frame_metadata ++ [frame_metadata]
  let frame_number := metadata.length
  let ball_data := rd.ball_data.add_frame frame_number ball_frame
  let players := player_frames.foldl
    (fun ps pf =>
      ps.insert pf.1 (((ps.lookup pf.1).getD PlayerData.new).add_frame frame_number pf.2))
    rd.players
  .ok { ball_data := ball_data, players := players, frame_metadata := metadata }

/-! ## `clean.rs`: the replay processor -/

/-- `ReplayProcessor` of `clean.rs`. -/
structure ReplayProcessor where
  replay : Replay
  replay_data : ReplayData
  actor_state : ActorStateModeler
  object_id_to_name : RMap ObjectId String
  name_to_object_id : RMap String ObjectId
  ball_actor_id : Option ActorId
  player_to_actor_id : RMap UniqueId ActorId
  player_actor_to_car_actor : RMap ActorId ActorId
  car_actor_to_boost_actor : RMap ActorId ActorId
  car_actor_to_jump_actor : RMap ActorId ActorId
  car_actor_to_double_jump_actor : RMap ActorId ActorId
  car_actor_to_dodge_actor : RMap ActorId ActorId
  deriving DecidableEq

/-- `ReplayProcessor::new`: build both name tables by enumerating the
replay's object table. -/
def ReplayProcessor.new (replay : Replay) : ReplayProcessor :=
  { replay := replay
    replay_data := ReplayData.new
    actor_state := ActorStateModeler.new
    object_id_to_name := replay.objects.enum.foldl
      (fun m p => m.insert (Int.ofNat p.1) p.2) RMap.empty
    name_to_object_id := replay.objects.enum.foldl
      (fun m p => m.insert p.2 (Int.ofNat p.1)) RMap.empty
    ball_actor_id := none
    player_to_actor_id := RMap.empty
    player_actor_to_car_actor := RMap.empty
    car_actor_to_boost_actor := RMap.empty
    car_actor_to_jump_actor := RMap.empty
    car_actor_to_double_jump_actor := RMap.empty
    car_actor_to_dodge_actor := RMap.empty }

/-- `ReplayProcessor::get_object_id_for_key`. -/
def get_object_id_for_key (p : ReplayProcessor) (name : String) :
    Except String ObjectId :=
  match p.name_to_object_id.lookup name with
  | none => .error "Could not get object id for name"
  | some oid => .ok oid

/-- `ReplayProcessor::get_actor_ids_by_object_id` (absent type: empty slice). -/
def get_actor_ids_by_object_id (p : ReplayProcessor) (object_id : ObjectId) :
    List ActorId :=
  (p.actor_state.actor_ids_by_type.lookup object_id).getD []

/-- `ReplayProcessor::get_actor_ids_by_type`. -/
def get_actor_ids_by_type (p : ReplayProcessor) (name : String) :
    Except String (List ActorId) :=
  (get_object_id_for_key p name).map (get_actor_ids_by_object_id p)

/-- `ReplayProcessor::get_actor_state` (the attribute map of a live actor). -/
def get_actor_state (p : ReplayProcessor) (actor_id : ActorId) :
    Except String (RMap ObjectId Attribute) :=
  match p.actor_state.actor_states.lookup actor_id with
  | none => .error "Actor id not found"
  | some st => .ok st.attributes

/-- `ReplayProcessor::get_attribute`. -/
def get_attribute (p : ReplayProcessor) (map : RMap ObjectId Attribute)
    (property : String) : Except String Attribute :=
  match p.name_to_object_id.lookup property with
  | none => .error "Could not find object id for property"
  | some oid =>
    match map.lookup oid with
    | none => .error "Could not find property with object id on map"
    | some attr => .ok attr

/-- `ReplayProcessor::get_actor_attribute`. -/
def get_actor_attribute (p : ReplayProcessor) (actor_id : ActorId)
    (property : String) : Except String Attribute := do
  get_attribute p (← get_actor_state p actor_id) property

/-- `ReplayProcessor::find_ball_actor`: first live actor over the ball
types, in `BALL_TYPES` order (types missing from the table are skipped). -/
def find_ball_actor (p : ReplayProcessor) : Option ActorId :=
  (BALL_TYPES.foldr
    (fun name acc =>
      match p.name_to_object_id.lookup name with
      | none => acc
      | some oid => get_actor_ids_by_object_id p oid ++ acc)
    []).head?

/-- `ReplayProcessor::update_ball_id` (always returns `Ok` in the source). -/
def update_ball_id (p : ReplayProcessor) (frame : Frame) : ReplayProcessor :=
  match p.ball_actor_id with
  | some actor_id =>
    if actor_id ∈ frame.deleted_actors then { p with ball_actor_id := none } else p
  | none =>
    match find_ball_actor p with
    | none => p
    | some actor_id =>
      if actor_id ∈ frame.deleted_actors then { p with ball_actor_id := none }
      else { p with ball_actor_id := some actor_id }

/-- `ReplayProcessor::get_ball_frame`. -/
def get_ball_frame (p : ReplayProcessor) : Except String BallFrame :=
  match p.ball_actor_id with
  | none => .ok .Empty
  | some actor_id => do
    let attr ← get_actor_attribute p actor_id RIGID_BODY_STATE_KEY
    let rb ← attr.asRigidBody
    pure (BallFrame.from_data rb)

/-- `ReplayProcessor::get_metadata_frame`: the `.unwrap()` on the
game-type table lookup (a Rust panic when the name is absent) is modelled
as an error. -/
def get_metadata_frame (p : ReplayProcessor) (time : ℚ) :
    Except String MetadataFrame :=
  match p.name_to_object_id.lookup GAME_TYPE with
  | none => .error "panicked: no object id for the game type"
  | some oid =>
    match get_actor_ids_by_object_id p oid with
    | [] => .error "No game actor"
    | actor_id :: _ => do
      let attr ← get_actor_attribute p actor_id SECONDS_REMAINING_KEY
      let seconds ← attr.asInt
      if 0 ≤ seconds ∧ seconds ≤ 255 then
        pure (MetadataFrame.new time seconds.toNat)
      else .error "Seconds remaining conversion failed"

/-- One `maintain_actor_link!` expansion of `clean.rs`: when the update's
attribute is the designated link attribute and the updated actor is live
under the designated source type, extract the key from the freshly stored
attribute and overwrite the map entry. -/
def link_step {κ : Type} [DecidableEq κ] (p : ReplayProcessor)
    (u : UpdatedAttribute) (actor_type link_key : String)
    (extract : Attribute → Except String κ) (m : RMap κ ActorId) :
    Except String (RMap κ ActorId) := do
  let attr_oid ← get_object_id_for_key p link_key
  if u.object_id = attr_oid then
    let ids ← get_actor_ids_by_type p actor_type
    if u.actor_id ∈ ids then do
      let a ← get_actor_attribute p u.actor_id link_key
      let key ← extract a
      pure (m.insert key u.actor_id)
    else pure m
  else pure m

/-- The body of the update loop of
`ReplayProcessor::update_player_to_car_mappings`: the six
`maintain_actor_link!` expansions, in source order. -/
def update_links_one (p : ReplayProcessor) (u : UpdatedAttribute) :
    Except String ReplayProcessor := do
  let m1 ← link_step p u CAR_TYPE PLAYER_REPLICATION_KEY
    (fun a => (Attribute.asActiveActor a).map ActiveActor.actor)
    p.player_actor_to_car_actor
  let p := { p with player_actor_to_car_actor := m1 }
  let m2 ← link_step p u PLAYER_TYPE UNIQUE_ID_KEY Attribute.asUniqueId
    p.player_to_actor_id
  let p := { p with player_to_actor_id := m2 }
  let m3 ← link_step p u BOOST_TYPE VEHICLE_KEY
    (fun a => (Attribute.asActiveActor a).map ActiveActor.actor)
    p.car_actor_to_boost_actor
  let p := { p with car_actor_to_boost_actor := m3 }
  let m4 ← link_step p u DODGE_TYPE VEHICLE_KEY
    (fun a => (Attribute.asActiveActor a).map ActiveActor.actor)
    p.car_actor_to_dodge_actor
  let p := { p with car_actor_to_dodge_actor := m4 }
  let m5 ← link_step p u JUMP_TYPE VEHICLE_KEY
    (fun a => (Attribute.asActiveActor a).map ActiveActor.actor)
    p.car_actor_to_jump_actor
  let p := { p with car_actor_to_jump_actor := m5 }
  let m6 ← link_step p u DOUBLE_JUMP_TYPE VEHICLE_KEY
    (fun a => (Attribute.asActiveActor a).map ActiveActor.actor)
    p.car_actor_to_double_jump_actor
  pure { p with car_actor_to_double_jump_actor := m6 }

/-- `ReplayProcessor::update_player_to_car_mappings`: run the link updates
over the frame's attribute updates, then sweep only the
player-actor-to-car map over the frame's delete list. -/
def update_player_to_car_mappings (p : ReplayProcessor) (frame : Frame) :
    Except String ReplayProcessor := do
  let p ← frame.updated_actors.foldlM update_links_one p
  pure { p with player_actor_to_car_actor :=
    frame.deleted_actors.foldl (fun m x => m.erase x) p.player_actor_to_car_actor }

/-- `ReplayProcessor::get_current_boost_values`: raw sampled byte (default
0), raw active byte (default 0), previously derived float (default 0),
previously stored sample byte (defaults to the fresh sample when never
stored, to 0 when stored under a non-byte variant). -/
def get_current_boost_values (p : ReplayProcessor) (actor_state : ActorState) :
    Nat × Nat × Nat × ℚ × Bool :=
  let amount_value : Nat :=
    match get_attribute p actor_state.attributes BOOST_AMOUNT_KEY with
    | .ok (.Byte v) => v
    | _ => 0
  let active_value : Nat :=
    match get_attribute p actor_state.attributes COMPONENT_ACTIVE_KEY with
    | .ok (.Byte v) => v
    | _ => 0
  let is_active := decide (active_value % 2 = 1)
  let derived_value : ℚ :=
    match actor_state.derived_attributes.lookup BOOST_AMOUNT_KEY with
    | some (.Float f) => f
    | _ => 0
  let last_boost_amount : Nat :=
    match actor_state.derived_attributes.lookup LAST_BOOST_AMOUNT_KEY with
    | none => amount_value
    | some (.Byte v) => v
    | some _ => 0
  (amount_value, last_boost_amount, active_value, derived_value, is_active)

/-- The per-actor computation inside `update_boost_amounts`: continue from
the derived value when the sample is unchanged, otherwise snap to the
sample; subtract the depletion for the frame when active; clamp at zero. -/
def boost_new_value (vals : Nat × Nat × Nat × ℚ × Bool) (delta : ℚ) : ℚ :=
  let amount := vals.1
  let last := vals.2.1
  let derived := vals.2.2.2.1
  let is_active := vals.2.2.2.2
  let current : ℚ := if amount = last then derived else (amount : ℚ)
  let current := if is_active then current - delta * BOOST_USED_PER_SECOND else current
  max current 0

/-- `ReplayProcessor::update_boost_amounts`: collect the new values for all
live boost actors, then write each value and its sample byte back into the
actor's derived attributes (the `.unwrap()`s on ids taken from the type
index are modelled as errors). -/
def update_boost_amounts (p : ReplayProcessor) (frame : Frame) :
    Except String ReplayProcessor := do
  let oid ← get_object_id_for_key p BOOST_TYPE
  let updates ← (get_actor_ids_by_object_id p oid).mapM
    (fun a =>
      match p.actor_state.actor_states.lookup a with
      | none => Except.error "panicked: actor id in type index without state"
      | some st =>
        let vals := get_current_boost_values p st
        Except.ok (a, boost_new_value vals frame.delta, vals.1))
  let modeler ← updates.foldlM
    (fun (m : ActorStateModeler) (t : ActorId × ℚ × Nat) =>
      match m.actor_states.lookup t.1 with
      | none => Except.error "panicked: get_mut on missing actor"
      | some st =>
        let da := (st.derived_attributes.insert LAST_BOOST_AMOUNT_KEY
          (Attribute.Byte t.2.2)).insert BOOST_AMOUNT_KEY (Attribute.Float t.2.1)
        let st' := { st with derived_attributes := da }
        Except.ok { m with actor_states := m.actor_states.insert t.1 st' })
    p.actor_state
  pure { p with actor_state := modeler }

/-- `ReplayProcessor::get_car_actor_id`. -/
def get_car_actor_id (p : ReplayProcessor) (player_id : UniqueId) :
    Except String ActorId :=
  match p.player_to_actor_id.lookup player_id with
  | none => .error "Could not find actor for player id"
  | some player_actor_id =>
    match p.player_actor_to_car_actor.lookup player_actor_id with
    | none => .error "Car actor for player not known"
    | some car => .ok car

/-- `ReplayProcessor::get_car_actor`. -/
def get_car_actor (p : ReplayProcessor) (player_id : UniqueId) :
    Except String ActorState := do
  let car ← get_car_actor_id p player_id
  match p.actor_state.actor_states.lookup car with
  | none => Except.error "Car actor not found for id"
  | some st => Except.ok st

/-- `ReplayProcessor::get_boost_actor_id`. -/
def get_boost_actor_id (p : ReplayProcessor) (player_id : UniqueId) :
    Except String ActorId := do
  let car ← get_car_actor_id p player_id
  match p.car_actor_to_boost_actor.lookup car with
  | none => Except.error "Boost actor for player not found"
  | some b => Except.ok b

/-- `ReplayProcessor::get_frame_for_player`. -/
def get_frame_for_player (p : ReplayProcessor) (player_id : UniqueId) :
    Except String PlayerFrame := do
  let car_state ← get_car_actor p player_id
  let rbAttr ← get_attribute p car_state.attributes RIGID_BODY_STATE_KEY
  let rigid_body ← rbAttr.asRigidBody
  let boost_id ← get_boost_actor_id p player_id
  let boost_state ← match p.actor_state.actor_states.lookup boost_id with
    | none => Except.error "Could not find boost actor for player"
    | some st => Except.ok st
  let amtAttr ← match boost_state.derived_attributes.lookup BOOST_AMOUNT_KEY with
    | none => Except.error "No value for key"
    | some a => Except.ok a
  let boost_amount ← amtAttr.asFloat
  pure (PlayerFrame.from_data rigid_body boost_amount)

/-- `ReplayProcessor::get_player_frames`: always succeeds; an entity-level
failure becomes `PlayerFrame::Empty`. -/
def get_player_frames (p : ReplayProcessor) :
    Except String (List (UniqueId × PlayerFrame)) :=
  .ok (p.player_to_actor_id.keys.map
    (fun player_id =>
      (player_id,
       match get_frame_for_player p player_id with
       | .ok f => f
       | .error _ => .Empty)))

/-- `ReplayProcessor::add_frame_to_replay_data`. -/
def add_frame_to_replay_data (p : ReplayProcessor) (time : ℚ) :
    Except String ReplayProcessor := do
  let metadata_frame ← get_metadata_frame p time
  let ball_frame ← get_ball_frame p
  let player_frames ← get_player_frames p
  let rd ← p.replay_data.add_frame metadata_frame ball_frame player_frames
  pure { p with replay_data := rd }

/-- The body of the per-frame loop of `ReplayProcessor::get_data`. -/
def process_replay_frame (p : ReplayProcessor) (frame : Frame) :
    Except String ReplayProcessor := do
  let modeler ← p.actor_state.process_frame frame
  let p := { p with actor_state := modeler }
  let p ← update_player_to_car_mappings p frame
  let p := update_ball_id p frame
  let p ← update_boost_amounts p frame
  add_frame_to_replay_data p frame.time

/-- The frame iteration of `ReplayProcessor::get_data`. -/
def get_data_loop (p : ReplayProcessor) : List Frame → Except String ReplayData
  | [] => .ok p.replay_data
  | f :: rest => do
    let p' ← process_replay_frame p f
    get_data_loop p' rest

/-- `ReplayProcessor::get_data` (the `.unwrap()` on absent network frames
is modelled as an error). -/
def ReplayProcessor.get_data (p : ReplayProcessor) : Except String ReplayData :=
  match p.replay.network_frames with
  | none => .error "panicked: no network frames"
  | some nf => get_data_loop p nf.frames

/-! ## Statement vocabulary and concrete scenarios -/

/-- The consistency invariant of `ActorStateModeler` stated by the spec: an
actor id has live state of object type `t` exactly when it is listed under
`t` in the type index. -/
def ActorStateModeler.inv (m : ActorStateModeler) : Prop :=
  ∀ (a : ActorId) (t : ObjectId),
    (∃ st, m.actor_states.lookup a = some st ∧ st.object_id = t) ↔
      a ∈ (m.actor_ids_by_type.lookup t).getD []

/-- Per-event behaviour of `ActorStateModeler` claimed by the spec: each of
the three event applications preserves `inv`; a successful delete removes
the id from both structures; deleting an absent id fails. -/
def ActorStateModeler.event_spec (m : ActorStateModeler) : Prop :=
  (∀ n m', m.new_actor n = .ok m' → m'.inv) ∧
  (∀ u r m', m.update_attribute u = .ok (r, m') → m'.inv) ∧
  (∀ a st m', m.delete_actor a = .ok (st, m') → m'.inv ∧
    m'.actor_states.lookup a = none ∧
    ∀ t, a ∉ (m'.actor_ids_by_type.lookup t).getD []) ∧
  (∀ a, m.actor_states.lookup a = none → ∃ e, m.delete_actor a = .error e)

/-- A processor with its actor-state map replaced (the shape
`update_boost_amounts` leaves behind). -/
def set_actor_states (p : ReplayProcessor) (s : RMap ActorId ActorState) :
    ReplayProcessor :=
  { p with actor_state := { p.actor_state with actor_states := s } }

/-- The actor state written back by `update_boost_amounts` for one boost
actor: its derived attributes gain the sampled byte and the new float. -/
def boost_written_state (st : ActorState) (amount : Nat) (value : ℚ) : ActorState :=
  { st with derived_attributes :=
      (st.derived_attributes.insert LAST_BOOST_AMOUNT_KEY
        (Attribute.Byte amount)).insert BOOST_AMOUNT_KEY (Attribute.Float value) }

/-- A concrete spawn event: actor 1 of object type 2, no trajectory. -/
def cx_spawn_new_actor : NewActor :=
  { actor_id := 1, name_id := none, object_id := 2,
    initial_trajectory := { location := none, rot := none } }

/-- A one-frame replay whose object table knows the game and boost types
but in which no game actor ever spawns. -/
def cx_no_game_replay : Replay :=
  let f : Frame :=
    { time := 0, delta := 0, new_actors := [], deleted_actors := [],
      updated_actors := [] }
  { objects := [GAME_TYPE, BOOST_TYPE], network_frames := some { frames := [f] } }

/-- Object table of the stale-link scenario: object ids 0-7 are the
vehicle-link attribute, the two other link attributes, the four component
types and the car type. -/
def cx_link_objects : List String :=
  [VEHICLE_KEY, PLAYER_REPLICATION_KEY, UNIQUE_ID_KEY, BOOST_TYPE, DODGE_TYPE,
   JUMP_TYPE, DOUBLE_JUMP_TYPE, CAR_TYPE]

/-- Stale-link scenario, frame 1: spawn car 20 and boost component 21, and
link boost 21 to car 20 through the vehicle attribute. -/
def cx_link_frame1 : Frame :=
  { time := 0, delta := 0,
    new_actors :=
      [{ actor_id := 20, name_id := none, object_id := 7,
         initial_trajectory := { location := none, rot := none } },
       { actor_id := 21, name_id := none, object_id := 3,
         initial_trajectory := { location := none, rot := none } }],
    deleted_actors := [],
    updated_actors :=
      [{ actor_id := 21, stream_id := 0, object_id := 0,
         attr := .ActiveActor { active := true, actor := 20 } }] }

/-- Stale-link scenario, frame 2: delete car 20. -/
def cx_link_frame2 : Frame :=
  { time := 1, delta := 1, new_actors := [], deleted_actors := [20],
    updated_actors := [] }

/-- The store-then-tracker part of the per-frame pipeline of `get_data`:
`ActorStateModeler::process_frame` followed by
`ReplayProcessor::update_player_to_car_mappings`. -/
def store_then_tracker (p : ReplayProcessor) (f : Frame) :
    Except String ReplayProcessor := do
  let m ← p.actor_state.process_frame f
  update_player_to_car_mappings { p with actor_state := m } f

/-- A fresh processor over an empty object table. -/
def cx_sweep_processor : ReplayProcessor :=
  ReplayProcessor.new { objects := [], network_frames := none }

/-- A frame that only deletes actor 5. -/
def cx_sweep_frame : Frame :=
  { time := 0, delta := 0, new_actors := [], deleted_actors := [5],
    updated_actors := [] }

/-- A processor whose live actor 3 is the single game actor (object id 0)
and carries `SecondsRemaining = 300` (object id 1). -/
def cx_metadata_processor : ReplayProcessor :=
  { ReplayProcessor.new
      { objects := [GAME_TYPE, SECONDS_REMAINING_KEY], network_frames := none } with
    actor_state :=
      { actor_states := RMap.empty.insert 3
          { attributes := RMap.empty.insert 1 (Attribute.Int 300),
            derived_attributes := RMap.empty, object_id := 0, name_id := none },
        actor_ids_by_type := RMap.empty.insert 0 [3] } }

end Clean

/-! # Theorems -/

namespace RMap

variable {κ α : Type} [DecidableEq κ]

theorem lookupL_eraseL_self (l : List (κ × α)) (k : κ) : lookupL (eraseL l k) k = none := by
  induction l with
  | nil => rfl
  | cons p rest ih =>
    by_cases h : p.1 = k
    · simpa [eraseL, h] using ih
    · simpa [eraseL, h, lookupL] using ih

theorem lookupL_eraseL_ne (l : List (κ × α)) (k k' : κ) (h : k' ≠ k) :
    lookupL (eraseL l k) k' = lookupL l k' := by
  induction l with
  | nil => rfl
  | cons p rest ih =>
    by_cases hp : p.1 = k
    · have hpk : ¬ p.1 = k' := by
        intro hc
        exact h (hc ▸ hp)
      simpa [eraseL, hp, lookupL, hpk, Ne.symm h] using ih
    · by_cases hp' : p.1 = k'
      · simp [eraseL, hp, lookupL, hp', h]
      · simpa [eraseL, hp, lookupL, hp'] using ih

theorem lookup_insert_self (m : RMap κ α) (k : κ) (v : α) :
    (m.insert k v).lookup k = some v := by
  simp [insert, lookup, lookupL]

theorem lookup_insert_ne (m : RMap κ α) (k k' : κ) (v : α) (h : k' ≠ k) :
    (m.insert k v).lookup k' = m.lookup k' := by
  simp only [insert, lookup, lookupL]
  rw [if_neg (fun hc => h hc.symm)]
  exact lookupL_eraseL_ne m.entries k k' h

theorem lookup_erase_self (m : RMap κ α) (k : κ) : (m.erase k).lookup k = none :=
  lookupL_eraseL_self m.entries k

theorem lookup_erase_ne (m : RMap κ α) (k k' : κ) (h : k' ≠ k) :
    (m.erase k).lookup k' = m.lookup k' :=
  lookupL_eraseL_ne m.entries k k' h

/-- Folding `erase` over a list of keys: a key in the list is gone, others
keep their binding. -/
theorem lookup_foldl_erase (l : List κ) (m : RMap κ α) (k : κ) :
    (l.foldl (fun m x => m.erase x) m).lookup k =
      if k ∈ l then none else m.lookup k := by
  induction l generalizing m with
  | nil => simp
  | cons x rest ih =>
    by_cases hx : k = x
    · subst hx
      simp only [List.foldl_cons, List.mem_cons, true_or, if_pos]
      rw [ih]
      by_cases hk : k ∈ rest
      · simp [hk]
      · simp [hk, lookup_erase_self]
    · simp only [List.foldl_cons, List.mem_cons]
      rw [ih]
      by_cases hk : k ∈ rest
      · simp [hk]
      · simp [hk, hx, lookup_erase_ne m x k hx]

end RMap

/-! ## Model validation: the repository's unit tests -/

/-- The repository's unit test `test_decode_vector` of both network files,
validating the cursor model: bytes `[0b0000_0110, 0b0000_1000, 0b1101_1000,
0b0000_1101]` decode to bias 128, dx 128, dy 128, dz 221. -/
theorem test_decode_vector :
    Vector.decode 5 (bitsOfBytes [6, 8, 216, 13]) =
      some ({ bias := 128, dx := 128, dy := 128, dz := 221 },
        [false, false, false, false]) ∧
    Network.Vector.decode (bitsOfBytes [6, 8, 216, 13]) =
      some ({ bias := 128, dx := 128, dy := 128, dz := 221 },
        [false, false, false, false]) := by
  constructor <;> decide

/-- The repository's unit test `test_decode_rotation`: bytes `[0b0000_0101,
0b0000_0000]` decode to yaw = 2, pitch and roll absent. -/
theorem test_decode_rotator :
    Rotator.decode (bitsOfBytes [5, 0]) =
      some ({ yaw := some 2, pitch := none, roll := none },
        [false, false, false, false, false]) := by
  decide

/-! ## C9: trajectory decoding is pure dispatch on the shape -/

/-- C9: `Trajectory::from_spawn` is pure dispatch on the shape: `None`
yields an all-absent trajectory consuming no bits; `Location` decodes
exactly one vector, rotation absent; `LocationAndRotation` decodes one
vector then one rotation and fails as a whole when either sub-decode
fails, never returning a partial trajectory. -/
theorem trajectory_from_spawn_dispatch :
    (∀ (v : Int) (bits : Bits),
      Trajectory.from_spawn .None v bits =
        some ({ location := none, rot := none }, bits)) ∧
    (∀ (v : Int) (bits : Bits),
      Trajectory.from_spawn .Location v bits =
        (Vector.decode v bits).map
          (fun p => ({ location := some p.1, rot := none }, p.2))) ∧
    (∀ (v : Int) (bits : Bits) (t : Trajectory) (rest : Bits),
      Trajectory.from_spawn .LocationAndRotator v bits = some (t, rest) →
      ∃ vec mid rt, Vector.decode v bits = some (vec, mid) ∧
        Rotator.decode mid = some (rt, rest) ∧
        t = { location := some vec, rot := some rt }) ∧
    (∀ (v : Int) (bits : Bits), Vector.decode v bits = none →
      Trajectory.from_spawn .LocationAndRotator v bits = none) ∧
    (∀ (v : Int) (bits : Bits) (vec : Vector) (mid : Bits),
      Vector.decode v bits = some (vec, mid) → Rotator.decode mid = none →
      Trajectory.from_spawn .LocationAndRotator v bits = none) := by
  refine ⟨fun v bits => rfl, fun v bits => rfl, ?_, ?_, ?_⟩
  · intro v bits t rest hsp
    cases hv : Vector.decode v bits with
    | none => simp [Trajectory.from_spawn, hv] at hsp
    | some p =>
      obtain ⟨vec, mid⟩ := p
      cases hr : Rotator.decode mid with
      | none => simp [Trajectory.from_spawn, hv, hr] at hsp
      | some q =>
        obtain ⟨rt, r2⟩ := q
        simp only [Trajectory.from_spawn, hv, hr, Option.some.injEq,
          Prod.mk.injEq] at hsp
        exact ⟨vec, mid, rt, rfl, by rw [hr, hsp.2], hsp.1.symm⟩
  · intro v bits hv
    simp [Trajectory.from_spawn, hv]
  · intro v bits vec mid hv hr
    simp [Trajectory.from_spawn, hv, hr]

/-- Witness for C9: the repository's test bytes decode under shape
`LocationAndRotation` into the tested vector plus an all-absent rotation,
and the dispatch theorem recovers the two sub-decodes. -/
theorem trajectory_from_spawn_dispatch_witness :
    Trajectory.from_spawn .LocationAndRotator 5 (bitsOfBytes [6, 8, 216, 13]) =
      some ({ location := some { bias := 128, dx := 128, dy := 128, dz := 221 },
              rot := some { yaw := none, pitch := none, roll := none } }, [false]) ∧
    (∃ vec mid rt,
      Vector.decode 5 (bitsOfBytes [6, 8, 216, 13]) = some (vec, mid) ∧
      Rotator.decode mid = some (rt, [false]) ∧
      ({ location := some { bias := 128, dx := 128, dy := 128, dz := 221 },
         rot := some { yaw := none, pitch := none, roll := none } } : Trajectory) =
        { location := some vec, rot := some rt }) :=
  ⟨by decide, trajectory_from_spawn_dispatch.2.2.1 5 _ _ _ (by decide)⟩

/-! ## Checked/unchecked reader agreement -/

theorem readU32Bits_agree (n : Nat) (bits : Bits) (x : Nat × Bits)
    (h : readU32Bits n bits = some x) : readU32BitsU n bits = x := by
  unfold readU32Bits at h
  split at h
  · cases h
    rfl
  · cases h

theorem readBit_agree (bits : Bits) (x : Bool × Bits)
    (h : readBit bits = some x) : readBitU bits = x := by
  cases bits with
  | nil => cases h
  | cons b r =>
    cases h
    rfl

theorem readBit_cons (bits : Bits) (b : Bool) (r : Bits)
    (h : readBit bits = some (b, r)) : bits = b :: r := by
  cases bits with
  | nil => cases h
  | cons c cs =>
    cases h
    rfl

theorem readBitsMaxComputed_agree (mb maxv : Nat) (bits : Bits) (x : Nat × Bits)
    (h : readBitsMaxComputed mb maxv bits = some x) :
    readBitsMaxComputedU mb maxv bits = x := by
  unfold readBitsMaxComputed at h
  split at h
  · cases h
  · rename_i data r hu
    have hu' : readU32BitsU mb bits = (data, r) := readU32Bits_agree _ _ _ hu
    simp only [readBitsMaxComputedU, hu']
    split at h
    · rename_i hc
      cases h
      simp [hc]
    · rename_i hc
      split at h
      · cases h
      · rename_i b r2 hb
        cases h
        have hb' : readBitU r = (b, r2) := readBit_agree _ _ hb
        simp [hc, hb']

theorem readI8_agree (bits : Bits) (x : Int × Bits)
    (h : readI8 bits = some x) : readI8U bits = x := by
  unfold readI8 at h
  split at h
  · cases h
  · rename_i v r hu
    cases h
    have hu' : readU32BitsU 8 bits = (v, r) := readU32Bits_agree _ _ _ hu
    simp [readI8U, hu']

theorem ifGet_readI8_agree (bits : Bits) (x : Option Int × Bits)
    (h : ifGet readI8 bits = some x) : ifGetU readI8U bits = x := by
  unfold ifGet at h
  split at h
  · cases h
  · rename_i r hb
    have hb' : readBitU bits = (true, r) := readBit_agree _ _ hb
    split at h
    · cases h
    · rename_i v r2 hf
      cases h
      have hf' : readI8U r = (v, r2) := readI8_agree _ _ hf
      simp [ifGetU, hb', hf']
  · rename_i r hb
    cases h
    have hb' : readBitU bits = (false, r) := readBit_agree _ _ hb
    simp [ifGetU, hb']

theorem vector_decode_agree (v : Int) (bits : Bits) (x : Vector × Bits)
    (h : Vector.decode v bits = some x) : Vector.decode_unchecked v bits = x := by
  unfold Vector.decode at h
  split at h
  · cases h
  · rename_i s r0 h0
    split at h
    · cases h
    · rename_i dx r1 h1
      split at h
      · cases h
      · rename_i dy r2 h2
        split at h
        · cases h
        · rename_i dz r3 h3
          cases h
          simp [Vector.decode_unchecked, readBitsMaxComputed_agree _ _ _ _ h0,
            readU32Bits_agree _ _ _ h1, readU32Bits_agree _ _ _ h2,
            readU32Bits_agree _ _ _ h3]

theorem rotator_decode_agree (bits : Bits) (x : Rotator × Bits)
    (h : Rotator.decode bits = some x) : Rotator.decode_unchecked bits = x := by
  unfold Rotator.decode at h
  split at h
  · cases h
  · rename_i yaw r1 h0
    split at h
    · cases h
    · rename_i pitch r2 h1
      split at h
      · cases h
      · rename_i roll r3 h2
        cases h
        simp [Rotator.decode_unchecked, ifGet_readI8_agree _ _ h0,
          ifGet_readI8_agree _ _ h1, ifGet_readI8_agree _ _ h2]

theorem trajectory_from_spawn_agree (sp : SpawnTrajectory) (v : Int) (bits : Bits)
    (x : Trajectory × Bits) (h : Trajectory.from_spawn sp v bits = some x) :
    Trajectory.from_spawn_unchecked sp v bits = x := by
  cases sp with
  | None =>
    simp only [Trajectory.from_spawn] at h
    cases h
    rfl
  | Location =>
    cases hv : Vector.decode v bits with
    | none => simp [Trajectory.from_spawn, hv] at h
    | some p =>
      simp only [Trajectory.from_spawn, hv, Option.map_some'] at h
      cases h
      simp [Trajectory.from_spawn_unchecked, vector_decode_agree _ _ _ hv]
  | LocationAndRotator =>
    cases hv : Vector.decode v bits with
    | none => simp [Trajectory.from_spawn, hv] at h
    | some p =>
      obtain ⟨vec, mid⟩ := p
      cases hr : Rotator.decode mid with
      | none => simp [Trajectory.from_spawn, hv, hr] at h
      | some q =>
        obtain ⟨rt, r2⟩ := q
        simp only [Trajectory.from_spawn, hv, hr] at h
        cases h
        simp [Trajectory.from_spawn_unchecked, vector_decode_agree _ _ _ hv,
          rotator_decode_agree _ _ hr]

/-! ## C6: checked and unchecked decoders agree -/

/-- C6: whenever the checked decoder succeeds, the unchecked variant on the
same input (and, for the vector, the same network version) returns exactly
the same decoded value and the same remaining bits. -/
theorem unchecked_decoders_agree :
    (∀ (v : Int) (bits : Bits) (r : Vector × Bits),
      Vector.decode v bits = some r → Vector.decode_unchecked v bits = r) ∧
    (∀ (bits : Bits) (r : Rotator × Bits),
      Rotator.decode bits = some r → Rotator.decode_unchecked bits = r) ∧
    (∀ (sp : SpawnTrajectory) (v : Int) (bits : Bits) (r : Trajectory × Bits),
      Trajectory.from_spawn sp v bits = some r →
        Trajectory.from_spawn_unchecked sp v bits = r) :=
  ⟨vector_decode_agree, rotator_decode_agree, trajectory_from_spawn_agree⟩

/-- Witness for C6 at the repository's test bytes (the contents of the
Rust unit tests `test_decode_vector_unchecked` and
`test_decode_rotation_unchecked`). -/
theorem unchecked_decoders_agree_witness :
    Vector.decode 5 (bitsOfBytes [6, 8, 216, 13]) =
      some ({ bias := 128, dx := 128, dy := 128, dz := 221 },
        [false, false, false, false]) ∧
    Vector.decode_unchecked 5 (bitsOfBytes [6, 8, 216, 13]) =
      ({ bias := 128, dx := 128, dy := 128, dz := 221 },
        [false, false, false, false]) :=
  ⟨by decide, unchecked_decoders_agree.1 5 _ _ (by decide)⟩

/-! ## C4: the vector wire format -/

theorem natOfBits_lt (l : List Bool) : natOfBits l < 2 ^ l.length := by
  induction l with
  | nil => simp [natOfBits]
  | cons b rest ih =>
    cases b <;> simp [natOfBits, List.length_cons, pow_succ] <;> omega

theorem u32ToI32_small (n : Nat) (h : n < 2 ^ 31) : u32ToI32 n = (n : Int) :=
  if_pos h

/-- What a successful checked `read_u32_bits` read is: the little-endian
value of the first `n` bits, which are consumed. -/
theorem readU32Bits_spec (n : Nat) (bits : Bits) (v : Nat) (r : Bits)
    (h : readU32Bits n bits = some (v, r)) :
    v = natOfBits (bits.take n) ∧ bits.length = n + r.length ∧
      r = bits.drop n ∧ v < 2 ^ n := by
  unfold readU32Bits at h
  split at h
  · rename_i hn
    cases h
    refine ⟨rfl, ?_, rfl, ?_⟩
    · simp only [List.length_drop]
      omega
    · have := natOfBits_lt (bits.take n)
      have hlen : (bits.take n).length = n := by
        simp [List.length_take]
        omega
      rw [hlen] at this
      exact this
  · cases h

/-- What a successful size-selector read is: `maxBits` base bits, plus one
extra bit exactly when the base value topped with the next power could
still stay below the bound; the result is always below the bound. -/
theorem readBitsMaxComputed_spec (mb maxv : Nat) (bits : Bits) (s : Nat) (r : Bits)
    (hmax : 2 ^ mb < maxv)
    (h : readBitsMaxComputed mb maxv bits = some (s, r)) :
    s < maxv ∧
    bits.length =
      (if natOfBits (bits.take mb) + 2 ^ mb < maxv then mb + 1 else mb) + r.length := by
  unfold readBitsMaxComputed at h
  split at h
  · cases h
  · rename_i data r0 hu
    obtain ⟨hdata, hlen, _, hlt⟩ := readU32Bits_spec mb bits data r0 hu
    split at h
    · rename_i hc
      cases h
      constructor
      · omega
      · rw [if_neg (by omega)]
        exact hlen
    · rename_i hc
      split at h
      · cases h
      · rename_i b r2 hb
        have hr0 : r0 = b :: r2 := readBit_cons r0 b r2 hb
        cases h
        constructor
        · cases b <;> simp <;> omega
        · rw [if_pos (by omega)]
          rw [hr0] at hlen
          simp only [List.length_cons] at hlen
          omega

/-- C4 (amended): a successful `Vector::decode` reads the size selector as
a 4-bit base read plus one conditional extra bit — consumed exactly when
the base value plus 16 is still below the bound — with bound 22 for
network version at least 7 and 20 below it; the decoded size is below the
bound, `bias = 1 <<< (size_bits + 1)`, and each of the three axes is then
read with exactly `size_bits + 2` bits, unsigned, widened to a signed
value with no scaling. For versions below 7 the decoder agrees bit-for-bit
with the unversioned decoder of `src/network.rs`, whose
`read_bits_max(5, 20)` is the same selector scheme. -/
theorem vector_decode_characterization (v : Int) (bits : Bits) (vec : Vector)
    (rest : Bits) (h : Vector.decode v bits = some (vec, rest)) :
    ∃ s r0, readBitsMaxComputed 4 (if 7 ≤ v then 22 else 20) bits = some (s, r0) ∧
      s < (if 7 ≤ v then 22 else 20) ∧
      vec.bias = 2 ^ (s + 1) ∧
      bits.length =
        (if natOfBits (bits.take 4) + 16 < (if 7 ≤ v then 22 else 20) then 5 else 4)
          + r0.length ∧
      r0.length = 3 * (s + 2) + rest.length ∧
      vec.dx = (natOfBits (r0.take (s + 2)) : Int) ∧
      vec.dy = (natOfBits ((r0.drop (s + 2)).take (s + 2)) : Int) ∧
      vec.dz = (natOfBits (((r0.drop (s + 2)).drop (s + 2)).take (s + 2)) : Int) ∧
      (v < 7 → Network.Vector.decode bits =
        some ({ bias := vec.bias, dx := vec.dx, dy := vec.dy, dz := vec.dz }, rest)) := by
  have hmax : 2 ^ 4 < (if 7 ≤ v then 22 else 20) := by
    split <;> norm_num
  unfold Vector.decode at h
  split at h
  · cases h
  · rename_i s r0 h0
    split at h
    · cases h
    · rename_i dx r1 h1
      split at h
      · cases h
      · rename_i dy r2 h2
        split at h
        · cases h
        · rename_i dz r3 h3
          cases h
          obtain ⟨hs, hsel⟩ := readBitsMaxComputed_spec 4 _ bits s r0 hmax h0
          obtain ⟨hdxv, hlen1, hdrop1, hdxlt⟩ := readU32Bits_spec _ _ _ _ h1
          obtain ⟨hdyv, hlen2, hdrop2, hdylt⟩ := readU32Bits_spec _ _ _ _ h2
          obtain ⟨hdzv, hlen3, hdrop3, hdzlt⟩ := readU32Bits_spec _ _ _ _ h3
          have hs23 : s + 2 ≤ 23 := by
            by_cases h7 : 7 ≤ v
            · rw [if_pos h7] at hs
              omega
            · rw [if_neg h7] at hs
              omega
          have hsmall : ∀ w : Nat, w < 2 ^ (s + 2) → u32ToI32 w = (w : Int) := by
            intro w hw
            refine u32ToI32_small w (lt_of_lt_of_le hw ?_)
            calc 2 ^ (s + 2) ≤ 2 ^ 23 := Nat.pow_le_pow_right (by norm_num) hs23
            _ ≤ 2 ^ 31 := Nat.pow_le_pow_right (by norm_num) (by norm_num)
          refine ⟨s, r0, h0, hs, rfl, ?_, by omega, ?_, ?_, ?_, ?_⟩
          · have h16 : (2 : Nat) ^ 4 = 16 := by norm_num
            rw [h16] at hsel
            exact hsel
          · simpa [hsmall dx hdxlt] using congrArg Int.ofNat hdxv
          · rw [hsmall dy hdylt, hdyv, hdrop1]
          · rw [hsmall dz hdzlt, hdzv, hdrop2, hdrop1]
          · intro hv7
            have h20 : (if 7 ≤ v then 22 else 20) = 20 := if_neg (by omega)
            rw [h20] at h0
            simp [Network.Vector.decode, readBitsMax, h0, h1, h2, h3]

/-- Counterexample for C4 as stated: with version 7 an all-zero stream
consumes five selector bits (four would leave one bit over), and with
version 5 an all-ones selector consumes only four (five would need one
more input bit) — the selector is four bits plus a conditional fifth under
both versions, not a fixed four (respectively five). -/
theorem vector_selector_width_cx :
    Vector.decode 7 (List.replicate 11 false) =
      some ({ bias := 2, dx := 0, dy := 0, dz := 0 }, []) ∧
    (List.replicate 11 false : Bits).length ≠ 4 + 3 * (0 + 2) ∧
    Vector.decode 5 (List.replicate 4 true ++ List.replicate 51 false) =
      some ({ bias := 65536, dx := 0, dy := 0, dz := 0 }, []) ∧
    (List.replicate 4 true ++ List.replicate 51 false : Bits).length ≠
      5 + 3 * (15 + 2) := by
  refine ⟨by decide, by decide, by decide, by decide⟩

/-- Witness for C4 at the repository's test bytes (version 5). -/
theorem vector_decode_characterization_witness :
    Vector.decode 5 (bitsOfBytes [6, 8, 216, 13]) =
      some ({ bias := 128, dx := 128, dy := 128, dz := 221 },
        [false, false, false, false]) ∧
    (∃ s r0,
      readBitsMaxComputed 4 (if 7 ≤ (5 : Int) then 22 else 20)
        (bitsOfBytes [6, 8, 216, 13]) = some (s, r0) ∧
      s < (if 7 ≤ (5 : Int) then 22 else 20) ∧
      ({ bias := 128, dx := 128, dy := 128, dz := 221 } : Vector).bias = 2 ^ (s + 1) ∧
      (bitsOfBytes [6, 8, 216, 13]).length =
        (if natOfBits ((bitsOfBytes [6, 8, 216, 13]).take 4) + 16 <
            (if 7 ≤ (5 : Int) then 22 else 20) then 5 else 4) + r0.length ∧
      r0.length = 3 * (s + 2) + ([false, false, false, false] : Bits).length ∧
      ({ bias := 128, dx := 128, dy := 128, dz := 221 } : Vector).dx =
        (natOfBits (r0.take (s + 2)) : Int) ∧
      ({ bias := 128, dx := 128, dy := 128, dz := 221 } : Vector).dy =
        (natOfBits ((r0.drop (s + 2)).take (s + 2)) : Int) ∧
      ({ bias := 128, dx := 128, dy := 128, dz := 221 } : Vector).dz =
        (natOfBits (((r0.drop (s + 2)).drop (s + 2)).take (s + 2)) : Int) ∧
      ((5 : Int) < 7 → Network.Vector.decode (bitsOfBytes [6, 8, 216, 13]) =
        some ({ bias := ({ bias := 128, dx := 128, dy := 128, dz := 221 } : Vector).bias,
                dx := ({ bias := 128, dx := 128, dy := 128, dz := 221 } : Vector).dx,
                dy := ({ bias := 128, dx := 128, dy := 128, dz := 221 } : Vector).dy,
                dz := ({ bias := 128, dx := 128, dy := 128, dz := 221 } : Vector).dz },
          [false, false, false, false]))) :=
  ⟨by decide, vector_decode_characterization 5 _ _ _ (by decide)⟩

namespace Clean

/-! ## C7: spawn semantics -/

/-- C7: spawning an actor id that already has live state is a no-op (no
error, no change to the state map or the type index) when the object types
match, and fails when they differ (the store is returned only through the
`ok` branch, so an error leaves it unchanged); a fresh actor id gets empty
state and is registered at the end of its type-index list. -/
theorem new_actor_spawn_spec (m : ActorStateModeler) (n : NewActor) :
    (∀ st, m.actor_states.lookup n.actor_id = some st →
      (st.object_id = n.object_id → m.new_actor n = .ok m) ∧
      (st.object_id ≠ n.object_id → ∃ e, m.new_actor n = .error e)) ∧
    (m.actor_states.lookup n.actor_id = none →
      m.new_actor n = .ok
        { actor_states := m.actor_states.insert n.actor_id (ActorState.new n),
          actor_ids_by_type := m.actor_ids_by_type.insert n.object_id
            ((m.actor_ids_by_type.lookup n.object_id).getD [] ++ [n.actor_id]) }) := by
  constructor
  · intro st hst
    constructor
    · intro he
      simp [ActorStateModeler.new_actor, hst, he]
    · intro hne
      exact ⟨"Tried to make new actor over existing state of a different type",
        by simp [ActorStateModeler.new_actor, hst, hne]⟩
  · intro hn
    simp [ActorStateModeler.new_actor, hn]

/-- Witness for C7: spawning actor 1 of object type 2 on the empty store. -/
theorem new_actor_spawn_spec_witness :
    ActorStateModeler.new.actor_states.lookup cx_spawn_new_actor.actor_id = none ∧
    ActorStateModeler.new.new_actor cx_spawn_new_actor = Except.ok
      { actor_states := ActorStateModeler.new.actor_states.insert
          cx_spawn_new_actor.actor_id (ActorState.new cx_spawn_new_actor),
        actor_ids_by_type := ActorStateModeler.new.actor_ids_by_type.insert
          cx_spawn_new_actor.object_id
          ((ActorStateModeler.new.actor_ids_by_type.lookup
            cx_spawn_new_actor.object_id).getD [] ++ [cx_spawn_new_actor.actor_id]) } :=
  ⟨by decide, (new_actor_spawn_spec ActorStateModeler.new cx_spawn_new_actor).2 (by decide)⟩

/-! ## C8: the store's two structures stay consistent -/

theorem inv_spawn_fresh (m : ActorStateModeler) (h : m.inv) (n : NewActor)
    (hst : m.actor_states.lookup n.actor_id = none) :
    ActorStateModeler.inv
      { actor_states := m.actor_states.insert n.actor_id (ActorState.new n),
        actor_ids_by_type := m.actor_ids_by_type.insert n.object_id
          ((m.actor_ids_by_type.lookup n.object_id).getD [] ++ [n.actor_id]) } := by
  intro a t
  by_cases ha : a = n.actor_id
  · subst ha
    by_cases ht : t = n.object_id
    · subst ht
      simp only [RMap.lookup_insert_self]
      constructor
      · intro _
        simp
      · intro _
        exact ⟨ActorState.new n, rfl, rfl⟩
    · simp only [RMap.lookup_insert_self, RMap.lookup_insert_ne _ _ _ _ ht]
      constructor
      · rintro ⟨st, hsome, hobj⟩
        cases hsome
        exact absurd hobj.symm ht
      · intro hmem
        exfalso
        obtain ⟨st, hl, _⟩ := (h n.actor_id t).mpr hmem
        rw [hst] at hl
        cases hl
  · by_cases ht : t = n.object_id
    · subst ht
      rw [RMap.lookup_insert_ne _ _ _ _ ha, RMap.lookup_insert_self]
      simp only [Option.getD_some, List.mem_append, List.mem_singleton]
      constructor
      · intro hex
        exact Or.inl ((h a n.object_id).mp hex)
      · intro hmem
        rcases hmem with hmem | hmem
        · exact (h a n.object_id).mpr hmem
        · exact absurd hmem ha
    · rw [RMap.lookup_insert_ne _ _ _ _ ha, RMap.lookup_insert_ne _ _ _ _ ht]
      exact h a t

theorem inv_update (m : ActorStateModeler) (h : m.inv) (u : UpdatedAttribute)
    (st : ActorState) (hst : m.actor_states.lookup u.actor_id = some st) :
    ActorStateModeler.inv
      { m with actor_states :=
          m.actor_states.insert u.actor_id ((st.update_attribute u).2) } := by
  intro a t
  by_cases ha : a = u.actor_id
  · subst ha
    simp only [RMap.lookup_insert_self]
    constructor
    · rintro ⟨st', hs, ho⟩
      cases hs
      exact (h u.actor_id t).mp ⟨st, hst, ho⟩
    · intro hmem
      obtain ⟨st', hl, ho⟩ := (h u.actor_id t).mpr hmem
      rw [hst] at hl
      cases hl
      exact ⟨(st.update_attribute u).2, rfl, ho⟩
  · rw [RMap.lookup_insert_ne _ _ _ _ ha]
    exact h a t

theorem inv_delete (m : ActorStateModeler) (h : m.inv) (a0 : ActorId)
    (st : ActorState) (hst : m.actor_states.lookup a0 = some st) :
    ActorStateModeler.inv
      { actor_states := m.actor_states.erase a0,
        actor_ids_by_type := m.actor_ids_by_type.insert st.object_id
          (((m.actor_ids_by_type.lookup st.object_id).getD []).filter
            (fun x => decide (x ≠ a0))) } := by
  intro a t
  by_cases ha : a = a0
  · subst ha
    simp only [RMap.lookup_erase_self]
    constructor
    · rintro ⟨st', hs, _⟩
      cases hs
    · intro hmem
      exfalso
      by_cases ht : t = st.object_id
      · subst ht
        rw [RMap.lookup_insert_self] at hmem
        simp [List.mem_filter] at hmem
      · rw [RMap.lookup_insert_ne _ _ _ _ ht] at hmem
        obtain ⟨st', hl, ho⟩ := (h a t).mpr hmem
        rw [hst] at hl
        cases hl
        exact ht ho.symm
  · rw [RMap.lookup_erase_ne _ _ _ ha]
    by_cases ht : t = st.object_id
    · subst ht
      rw [RMap.lookup_insert_self]
      simp only [Option.getD_some, List.mem_filter, decide_eq_true_eq]
      constructor
      · intro hex
        exact ⟨(h a st.object_id).mp hex, ha⟩
      · intro hmem
        exact (h a st.object_id).mpr hmem.1
    · rw [RMap.lookup_insert_ne _ _ _ _ ht]
      exact h a t

/-- C8: from a consistent store, each of the three event applications
preserves the state-map/type-index consistency invariant; a successful
delete removes the actor from both structures atomically (its state lookup
then fails and it is listed under no type), and deleting an absent actor
fails and, the store being returned only through the `ok` branch, changes
nothing. -/
theorem actor_modeler_event_spec (m : ActorStateModeler) (h : m.inv) :
    m.event_spec := by
  refine ⟨?_, ?_, ?_, ?_⟩
  · intro n m' hok
    unfold ActorStateModeler.new_actor at hok
    split at hok
    · rename_i st hst
      split at hok
      · cases hok
        exact h
      · cases hok
    · rename_i hst
      cases hok
      exact inv_spawn_fresh m h n hst
  · intro u r m' hok
    unfold ActorStateModeler.update_attribute at hok
    split at hok
    · cases hok
    · rename_i st hst
      cases hok
      exact inv_update m h u st hst
  · intro a st m' hok
    unfold ActorStateModeler.delete_actor at hok
    split at hok
    · cases hok
    · rename_i st0 hst
      cases hok
      refine ⟨inv_delete m h a _ hst, RMap.lookup_erase_self _ _, ?_⟩
      intro t hmem
      obtain ⟨st', hl, _⟩ := ((inv_delete m h a _ hst) a t).mpr hmem
      rw [RMap.lookup_erase_self] at hl
      cases hl
  · intro a ha
    exact ⟨"Unabled to delete actor id",
      by simp [ActorStateModeler.delete_actor, ha]⟩

/-- Witness for C8: the empty store satisfies the invariant, so every
event applied to it behaves as specified. -/
theorem actor_modeler_event_spec_witness :
    ActorStateModeler.new.inv ∧ ActorStateModeler.new.event_spec :=
  have hinv : ActorStateModeler.new.inv := by
    intro a t
    simp [ActorStateModeler.new, RMap.lookup, RMap.empty, lookupL]
  ⟨hinv, actor_modeler_event_spec ActorStateModeler.new hinv⟩

/-! ## C1: the timeline padding is off by one -/

/-- C1 (code-bug evidence): `ReplayData::add_frame` computes the frame
number as the metadata length after pushing the metadata record, and the
per-entity `add_frame` pads up to that number before appending. After one
frame the metadata sequence has length 1 but the ball and player sequences
have length 2, with a spurious leading empty record; a player first pushed
at frame 5 of a 10-frame replay ends with 11 records whose first five are
empty, while the metadata sequence has 10 — not the index-aligned
equal-length sequences the specification describes. -/
theorem replay_data_add_frame_off_by_one :
    (ReplayData.new.add_frame (MetadataFrame.new 0 30) BallFrame.Empty
        [(1, PlayerFrame.Empty)]).map
      (fun rd => (rd.frame_metadata.length, rd.ball_data.frames.length,
        ((rd.players.lookup 1).getD PlayerData.new).frames.length)) =
      Except.ok (1, 2, 2) ∧
    ((List.range 10).foldlM
        (fun rd i => ReplayData.add_frame rd (MetadataFrame.new (i : ℚ) 0)
          BallFrame.Empty (if 4 ≤ i then [(1, PlayerFrame.Empty)] else []))
        ReplayData.new).map
      (fun rd => (rd.frame_metadata.length, rd.ball_data.frames.length,
        ((rd.players.lookup 1).getD PlayerData.new).frames.length,
        ((rd.players.lookup 1).getD PlayerData.new).frames.take 5)) =
      Except.ok (10, 11, 11, List.replicate 5 PlayerFrame.Empty) := by
  constructor <;> decide

/-! ## C10: the seconds-remaining range check -/

/-- C10: when a game actor is live and its seconds-remaining attribute is
the integer `v`, the metadata record is produced exactly when `v` fits in
an unsigned byte, carrying that value and the frame time; otherwise
`get_metadata_frame` fails with the conversion error. -/
theorem metadata_seconds_remaining_range (p : ReplayProcessor) (time : ℚ)
    (oid soid : ObjectId) (a : ActorId) (ids : List ActorId) (st : ActorState)
    (v : Int)
    (h1 : p.name_to_object_id.lookup GAME_TYPE = some oid)
    (h2 : get_actor_ids_by_object_id p oid = a :: ids)
    (h3 : p.actor_state.actor_states.lookup a = some st)
    (h4 : p.name_to_object_id.lookup SECONDS_REMAINING_KEY = some soid)
    (h5 : st.attributes.lookup soid = some (Attribute.Int v)) :
    (0 ≤ v → v ≤ 255 →
      get_metadata_frame p time = .ok (MetadataFrame.new time v.toNat)) ∧
    ((v < 0 ∨ 255 < v) →
      get_metadata_frame p time = .error "Seconds remaining conversion failed") := by
  have hattr : get_actor_attribute p a SECONDS_REMAINING_KEY =
      .ok (Attribute.Int v) := by
    simp [get_actor_attribute, get_actor_state, h3, get_attribute, h4, h5,
      bind, Except.bind]
  have hbranch : get_metadata_frame p time =
      (if 0 ≤ v ∧ v ≤ 255 then Except.ok (MetadataFrame.new time v.toNat)
       else Except.error "Seconds remaining conversion failed") := by
    simp [get_metadata_frame, h1, h2, hattr, Attribute.asInt, bind, Except.bind,
      pure, Except.pure]
  constructor
  · intro hv0 hv255
    rw [hbranch, if_pos ⟨hv0, hv255⟩]
  · intro hv
    rw [hbranch, if_neg (by omega)]

/-- Witness for C10: the processor whose game actor carries
`SecondsRemaining = 300` fails the byte conversion. -/
theorem metadata_seconds_remaining_range_witness :
    get_metadata_frame cx_metadata_processor 0 =
      Except.error "Seconds remaining conversion failed" :=
  (metadata_seconds_remaining_range cx_metadata_processor 0 0 1 3 []
    { attributes := RMap.empty.insert 1 (Attribute.Int 300),
      derived_attributes := RMap.empty, object_id := 0, name_id := none } 300
    (by decide) (by decide) (by decide) (by decide) (by decide)).2 (by decide)

/-! ## C5: the derived boost amount -/

/-- C5: the per-frame boost computation — continue from the previous
derived value when the sampled byte is unchanged, snap to the sampled byte
when it changed, subtract `delta × (80 / 0.93)` when the active byte is
odd, clamp at zero — is never negative, leaves the amount unchanged while
inactive with no new sample, is non-increasing while active with no new
sample (the frame delta being non-negative), and `update_boost_amounts`
stores the clamped value back together with the sampled byte in the
actor's derived attributes. -/
theorem boost_amount_update_spec (amount last active : Nat) (derived delta : ℚ) :
    (0 ≤ boost_new_value (amount, last, active, derived,
        decide (active % 2 = 1)) delta) ∧
    (amount = last → active % 2 ≠ 1 → 0 ≤ derived →
      boost_new_value (amount, last, active, derived,
        decide (active % 2 = 1)) delta = derived) ∧
    (amount = last → active % 2 = 1 → 0 ≤ delta → 0 ≤ derived →
      boost_new_value (amount, last, active, derived,
        decide (active % 2 = 1)) delta ≤ derived) ∧
    (amount ≠ last →
      boost_new_value (amount, last, active, derived,
          decide (active % 2 = 1)) delta =
        max ((amount : ℚ) -
          (if active % 2 = 1 then delta * BOOST_USED_PER_SECOND else 0)) 0) ∧
    (∀ (p : ReplayProcessor) (f : Frame) (oid : ObjectId) (aId : ActorId)
        (st : ActorState),
      p.name_to_object_id.lookup BOOST_TYPE = some oid →
      get_actor_ids_by_object_id p oid = [aId] →
      p.actor_state.actor_states.lookup aId = some st →
      get_current_boost_values p st =
        (amount, last, active, derived, decide (active % 2 = 1)) →
      f.delta = delta →
      ∃ p', update_boost_amounts p f = .ok p' ∧
        (p'.actor_state.actor_states.lookup aId).map ActorState.derived_attributes =
          some ((st.derived_attributes.insert LAST_BOOST_AMOUNT_KEY
              (Attribute.Byte amount)).insert BOOST_AMOUNT_KEY
            (Attribute.Float (boost_new_value (amount, last, active, derived,
              decide (active % 2 = 1)) delta)))) := by
  have hC : (0 : ℚ) ≤ BOOST_USED_PER_SECOND := by
    norm_num [BOOST_USED_PER_SECOND]
  refine ⟨?_, ?_, ?_, ?_, ?_⟩
  · simp only [boost_new_value]
    exact le_max_right _ _
  · intro h1 h2 h3
    have hdec : decide (active % 2 = 1) = false := decide_eq_false h2
    simp [boost_new_value, if_pos h1, hdec]
    exact h3
  · intro h1 h2 h3 h4
    have hdec : decide (active % 2 = 1) = true := decide_eq_true h2
    simp only [boost_new_value, if_pos h1, hdec, if_true]
    exact max_le (sub_le_self derived (mul_nonneg h3 hC)) h4
  · intro h1
    by_cases hact : active % 2 = 1
    · simp [boost_new_value, if_neg h1, hact]
    · simp [boost_new_value, if_neg h1, hact]
  · intro p f oid aId st hb hids hlook hvals hdelta
    refine ⟨set_actor_states p (p.actor_state.actor_states.insert aId
      (boost_written_state st amount (boost_new_value (amount, last, active, derived,
        decide (active % 2 = 1)) delta))), ?_, ?_⟩
    · simp [update_boost_amounts, get_object_id_for_key, hb, hids, hlook, hvals,
        hdelta, bind, Except.bind, pure, Except.pure, List.mapM, List.mapM.loop,
        List.foldlM, boost_written_state, set_actor_states]
    · simp [set_actor_states, RMap.lookup_insert_self, boost_written_state]

/-- Witness for C5: a boost actor with unchanged sample 100, active byte 1,
previous derived value 50 and frame delta 1 does not increase. -/
theorem boost_amount_update_spec_witness :
    (100 : Nat) = 100 ∧ (1 : Nat) % 2 = 1 ∧ (0 : ℚ) ≤ 1 ∧ (0 : ℚ) ≤ 50 ∧
    boost_new_value (100, 100, 1, (50 : ℚ), decide ((1 : Nat) % 2 = 1)) 1 ≤ 50 :=
  ⟨rfl, by decide, by norm_num, by norm_num,
    (boost_amount_update_spec 100 100 1 50 1).2.2.1 rfl (by decide)
      (by norm_num) (by norm_num)⟩

/-! ## C3: only the player-car map is swept on deletion -/

/-- Counterexample for C3 as stated: link boost component 21 to car 20,
then delete car 20 — after the tracker has processed the delete list of
that frame, the car-to-boost map still holds the entry keyed by the
deleted car 20. -/
theorem stale_boost_link_after_delete :
    (20 : ActorId) ∈ cx_link_frame2.deleted_actors ∧
    (do
      let p1 ← store_then_tracker
        (ReplayProcessor.new { objects := cx_link_objects, network_frames := none })
        cx_link_frame1
      let p2 ← store_then_tracker p1 cx_link_frame2
      pure (p2.car_actor_to_boost_actor.lookup 20)) = Except.ok (some 21) := by
  constructor
  · decide
  · decide

/-- C3 (amended): after `update_player_to_car_mappings` processes a frame,
the player-pawn-to-car map holds no entry keyed by an actor deleted in
that frame; the other five relationship maps are not swept — with no
attribute updates in the frame they come back unchanged, entries keyed by
deleted actors included. -/
theorem delete_sweep_only_player_car_map (p : ReplayProcessor) (f : Frame)
    (p' : ReplayProcessor) (h : update_player_to_car_mappings p f = .ok p') :
    (∀ a ∈ f.deleted_actors, p'.player_actor_to_car_actor.lookup a = none) ∧
    (f.updated_actors = [] →
      p'.car_actor_to_boost_actor = p.car_actor_to_boost_actor ∧
      p'.car_actor_to_jump_actor = p.car_actor_to_jump_actor ∧
      p'.car_actor_to_double_jump_actor = p.car_actor_to_double_jump_actor ∧
      p'.car_actor_to_dodge_actor = p.car_actor_to_dodge_actor ∧
      p'.player_to_actor_id = p.player_to_actor_id) := by
  unfold update_player_to_car_mappings at h
  cases hm : f.updated_actors.foldlM update_links_one p with
  | error e =>
    rw [hm] at h
    simp [bind, Except.bind] at h
  | ok pmid =>
    rw [hm] at h
    simp only [bind, Except.bind, pure, Except.pure, Except.ok.injEq] at h
    subst h
    constructor
    · intro a ha
      rw [RMap.lookup_foldl_erase]
      simp [ha]
    · intro hupd
      rw [hupd] at hm
      simp only [List.foldlM, pure, Except.pure, Except.ok.injEq] at hm
      subst hm
      exact ⟨rfl, rfl, rfl, rfl, rfl⟩

/-- Witness for C3's amended theorem: a frame that only deletes actor 5,
processed over a fresh processor. -/
theorem delete_sweep_only_player_car_map_witness :
    update_player_to_car_mappings cx_sweep_processor cx_sweep_frame =
      Except.ok cx_sweep_processor ∧
    ((∀ a ∈ cx_sweep_frame.deleted_actors,
        cx_sweep_processor.player_actor_to_car_actor.lookup a = none) ∧
      (cx_sweep_frame.updated_actors = [] →
        cx_sweep_processor.car_actor_to_boost_actor =
          cx_sweep_processor.car_actor_to_boost_actor ∧
        cx_sweep_processor.car_actor_to_jump_actor =
          cx_sweep_processor.car_actor_to_jump_actor ∧
        cx_sweep_processor.car_actor_to_double_jump_actor =
          cx_sweep_processor.car_actor_to_double_jump_actor ∧
        cx_sweep_processor.car_actor_to_dodge_actor =
          cx_sweep_processor.car_actor_to_dodge_actor ∧
        cx_sweep_processor.player_to_actor_id =
          cx_sweep_processor.player_to_actor_id)) :=
  have h : update_player_to_car_mappings cx_sweep_processor cx_sweep_frame =
      Except.ok cx_sweep_processor := by decide
  ⟨h, delete_sweep_only_player_car_map cx_sweep_processor cx_sweep_frame
    cx_sweep_processor h⟩

/-! ## C2: which failures abort the run -/

/-- Counterexample for C2 as stated: on a one-frame replay whose game
actor never spawns, the missing-game-actor failure is not recovered —
`get_data` aborts with the metadata error instead of continuing. -/
theorem get_data_aborts_without_game_actor :
    ReplayProcessor.get_data (ReplayProcessor.new cx_no_game_replay) =
      Except.error "No game actor" := by
  decide

/-- C2 (amended): the metadata step does fail on a frame with no live
game actor, but that failure is not recoverable: metadata and ball-frame
errors propagate out of `add_frame_to_replay_data`, and a failing
per-frame step aborts the remaining frames of `get_data`; only
player-frame failures are converted to empty records —
`get_player_frames` never fails. -/
theorem entity_error_boundary :
    (∀ (p : ReplayProcessor) (oid : ObjectId) (t : ℚ),
      p.name_to_object_id.lookup GAME_TYPE = some oid →
      get_actor_ids_by_object_id p oid = [] →
      get_metadata_frame p t = .error "No game actor") ∧
    (∀ p : ReplayProcessor, ∃ l, get_player_frames p = Except.ok l) ∧
    (∀ (p : ReplayProcessor) (t : ℚ) (e : String),
      get_metadata_frame p t = .error e →
      add_frame_to_replay_data p t = .error e) ∧
    (∀ (p : ReplayProcessor) (t : ℚ) (mf : MetadataFrame) (e : String),
      get_metadata_frame p t = .ok mf → get_ball_frame p = .error e →
      add_frame_to_replay_data p t = .error e) ∧
    (∀ (p : ReplayProcessor) (frame : Frame) (rest : List Frame) (e : String),
      process_replay_frame p frame = .error e →
      get_data_loop p (frame :: rest) = .error e) := by
  refine ⟨?_, ?_, ?_, ?_, ?_⟩
  · intro p oid t h1 h2
    simp [get_metadata_frame, h1, h2]
  · intro p
    exact ⟨_, rfl⟩
  · intro p t e h
    simp [add_frame_to_replay_data, h, bind, Except.bind]
  · intro p t mf e hm hb
    simp [add_frame_to_replay_data, hm, hb, bind, Except.bind]
  · intro p frame rest e h
    simp [get_data_loop, h, bind, Except.bind]

/-- Witness for C2's amended theorem: the no-game-actor processor's
metadata error propagates out of `add_frame_to_replay_data`. -/
theorem entity_error_boundary_witness :
    get_metadata_frame (ReplayProcessor.new cx_no_game_replay) 0 =
      Except.error "No game actor" ∧
    add_frame_to_replay_data (ReplayProcessor.new cx_no_game_replay) 0 =
      Except.error "No game actor" :=
  have h : get_metadata_frame (ReplayProcessor.new cx_no_game_replay) 0 =
      Except.error "No game actor" := by decide
  ⟨h, entity_error_boundary.2.2.1 (ReplayProcessor.new cx_no_game_replay) 0
    "No game actor" h⟩

end Clean

end Boxcars
